import Mathlib

/-!
Shallow embedding of the invoice totals engine and trip profitability
helpers of the knlLogistics repository (src/knlInvoice/models.py and
src/knlInvoice/signals.py).

Stored column values are modeled as exact rationals: every arithmetic
operation the embedded code performs on them (addition, subtraction,
multiplication, division by a nonzero constant or by a nonzero revenue)
is exact in Decimal and in Rat alike. Where the source mixes Python
runtime types (Invoice.calculate_totals multiplies a Decimal subtotal by
the float tax_rate/100, which raises TypeError), the runtime values are
modeled as tagged PyVal terms whose operations implement Python's
coercion rules, so the raising paths are embedded faithfully. Dates are
modeled as integer day numbers with the usual order. Fallible loads of
child-row collections (Django querysets inside a try block) are modeled
as an Except argument.
-/

namespace KnlInvoice

/-- Status values of Invoice.STATUS_CHOICES in models.py. -/
inductive Status where
  | draft
  | sent
  | pending
  | paid
  | overdue
  | cancelled
deriving DecidableEq, Repr

/-- Line-item row of the InvoiceItem model in models.py: quantity,
unit price and the stored total column. -/
structure InvoiceItem where
  quantity : ℚ
  unit_price : ℚ
  total : ℚ
deriving DecidableEq, Repr

/-- Invoice record of models.py restricted to the fields the totals
engine reads or writes. pk is the primary key (none before the first
save); due_date is an optional day number. -/
structure Invoice where
  pk : Option Nat
  due_date : Option Int
  tax_rate : ℚ
  subtotal : ℚ
  tax_amount : ℚ
  total : ℚ
  amount_paid : ℚ
  outstanding_amount : ℚ
  status : Status
deriving DecidableEq, Repr

/-- InvoiceItem.calculate_total (models.py lines 558-560): sets the
stored total column to quantity times unit price. The embedded record
update models the float multiplication at value level. -/
def InvoiceItem.calculate_total (it : InvoiceItem) : InvoiceItem :=
  { it with total := it.quantity * it.unit_price }

/-- Python runtime numeric value: an int, a decimal.Decimal, or a
float. The carried rational is the value; the tag is the runtime type,
which decides whether an operation raises. -/
inductive PyVal where
  | int : ℤ → PyVal
  | dec : ℚ → PyVal
  | flt : ℚ → PyVal
deriving DecidableEq, Repr

/-- Numeric value carried by a PyVal. -/
def PyVal.val : PyVal → ℚ
  | PyVal.int n => (n : ℚ)
  | PyVal.dec q => q
  | PyVal.flt q => q

/-- Python addition under the coercion rules of int, float and
decimal.Decimal: int combines with either, Decimal and float refuse to
mix and raise TypeError. -/
def pyAdd : PyVal → PyVal → Except String PyVal
  | PyVal.int a, PyVal.int b => Except.ok (PyVal.int (a + b))
  | PyVal.int a, PyVal.dec b => Except.ok (PyVal.dec (a + b))
  | PyVal.dec a, PyVal.int b => Except.ok (PyVal.dec (a + b))
  | PyVal.dec a, PyVal.dec b => Except.ok (PyVal.dec (a + b))
  | PyVal.int a, PyVal.flt b => Except.ok (PyVal.flt (a + b))
  | PyVal.flt a, PyVal.int b => Except.ok (PyVal.flt (a + b))
  | PyVal.flt a, PyVal.flt b => Except.ok (PyVal.flt (a + b))
  | PyVal.dec _, PyVal.flt _ => Except.error "TypeError"
  | PyVal.flt _, PyVal.dec _ => Except.error "TypeError"

/-- Python subtraction under the same coercion rules as pyAdd. -/
def pySub : PyVal → PyVal → Except String PyVal
  | PyVal.int a, PyVal.int b => Except.ok (PyVal.int (a - b))
  | PyVal.int a, PyVal.dec b => Except.ok (PyVal.dec (a - b))
  | PyVal.dec a, PyVal.int b => Except.ok (PyVal.dec (a - b))
  | PyVal.dec a, PyVal.dec b => Except.ok (PyVal.dec (a - b))
  | PyVal.int a, PyVal.flt b => Except.ok (PyVal.flt (a - b))
  | PyVal.flt a, PyVal.int b => Except.ok (PyVal.flt (a - b))
  | PyVal.flt a, PyVal.flt b => Except.ok (PyVal.flt (a - b))
  | PyVal.dec _, PyVal.flt _ => Except.error "TypeError"
  | PyVal.flt _, PyVal.dec _ => Except.error "TypeError"

/-- Python multiplication under the same coercion rules as pyAdd. -/
def pyMul : PyVal → PyVal → Except String PyVal
  | PyVal.int a, PyVal.int b => Except.ok (PyVal.int (a * b))
  | PyVal.int a, PyVal.dec b => Except.ok (PyVal.dec (a * b))
  | PyVal.dec a, PyVal.int b => Except.ok (PyVal.dec (a * b))
  | PyVal.dec a, PyVal.dec b => Except.ok (PyVal.dec (a * b))
  | PyVal.int a, PyVal.flt b => Except.ok (PyVal.flt (a * b))
  | PyVal.flt a, PyVal.int b => Except.ok (PyVal.flt (a * b))
  | PyVal.flt a, PyVal.flt b => Except.ok (PyVal.flt (a * b))
  | PyVal.dec _, PyVal.flt _ => Except.error "TypeError"
  | PyVal.flt _, PyVal.dec _ => Except.error "TypeError"

/-- Python sum of a list of Decimal column values with the default int
start value 0: the empty sum is the int 0, a nonempty sum is a Decimal
(int plus Decimal is permitted). -/
def pySum (xs : List ℚ) : PyVal :=
  match xs with
  | [] => PyVal.int 0
  | _ => PyVal.dec xs.sum

/-- Invoice.calculate_totals (models.py lines 475-497). When pk is none
the four derived fields are zeroed. Otherwise the body runs inside a
try/except that prints the error and keeps the existing field values:
the itemsLoad argument models the fallible load and summation of the
items queryset, and its error branch returns the invoice unchanged,
mirroring the except handler which reports the failure and assigns
nothing. When the load succeeds, the statements execute in order with
their Python runtime types on a persisted, DB-loaded invoice: each
item.total is a Decimal (DecimalField), so the subtotal assignment
yields the int 0 for no items and a Decimal sum otherwise; tax_rate is
a FloatField, so tax_rate / 100 is a float, and the tax_amount line
multiplies the subtotal by that float — a TypeError for a Decimal
subtotal; amount_paid is a Decimal (DecimalField), so the
outstanding_amount line subtracts a Decimal from a float total — again
a TypeError. The first raising statement jumps to the except handler,
keeping every not-yet-assigned field at its prior stored value; the
assignments already made stand. -/
def Invoice.calculate_totals (inv : Invoice)
    (itemsLoad : Except String (List InvoiceItem)) : Invoice :=
  if inv.pk = none then
    { inv with subtotal := 0, tax_amount := 0, total := 0, outstanding_amount := 0 }
  else
    match itemsLoad with
    | Except.error _ => inv
    | Except.ok items =>
      let subtotal : PyVal := pySum (items.map InvoiceItem.total)
      match pyMul subtotal (PyVal.flt (inv.tax_rate / 100)) with
      | Except.error _ => { inv with subtotal := subtotal.val }
      | Except.ok tax_amount =>
        match pyAdd subtotal tax_amount with
        | Except.error _ =>
          { inv with subtotal := subtotal.val, tax_amount := tax_amount.val }
        | Except.ok total =>
          match pySub total (PyVal.dec inv.amount_paid) with
          | Except.error _ =>
            { inv with subtotal := subtotal.val, tax_amount := tax_amount.val,
                       total := total.val }
          | Except.ok outstanding =>
            { inv with subtotal := subtotal.val, tax_amount := tax_amount.val,
                       total := total.val, outstanding_amount := outstanding.val }

/-- Invoice.mark_as_paid (models.py lines 499-511). With no amount given
it uses the stored outstanding_amount, adds it to amount_paid, recomputes
outstanding, and sets status paid (clamping outstanding to 0) or pending.
The method creates no PaymentRecord row: the embedding takes no payment
store and returns only the updated invoice. -/
def Invoice.mark_as_paid (inv : Invoice) (amount : Option ℚ) : Invoice :=
  let amt := amount.getD inv.outstanding_amount
  let paidNow := inv.amount_paid + amt
  let outstanding := inv.total - paidNow
  if outstanding ≤ 0 then
    { inv with amount_paid := paidNow, outstanding_amount := 0, status := Status.paid }
  else
    { inv with amount_paid := paidNow, outstanding_amount := outstanding,
               status := Status.pending }

/-- Overdue test shared by the payment signal handlers in signals.py:
Python `invoice.due_date and invoice.due_date < datetime.now().date()`. -/
def due_before (dd : Option Int) (today : Int) : Bool :=
  match dd with
  | some d => decide (d < today)
  | none => false

/-- update_invoice_on_payment_save (signals.py lines 80-114): sums the
invoice's payment amounts, derives a status (paid when the sum covers a
positive total, else pending when the sum is positive, else draft), then
overwrites it with overdue when the status is not paid and the due date
has passed, and writes amount_paid and status back by a queryset update.
Only those two columns are written; outstanding_amount is untouched. -/
def update_invoice_on_payment_save (inv : Invoice) (payments : List ℚ)
    (today : Int) : Invoice :=
  let total_paid := payments.sum
  let total := inv.total
  let status1 : Status :=
    if total_paid ≥ total ∧ total > 0 then Status.paid
    else if total_paid > 0 then Status.pending
    else Status.draft
  let status2 : Status :=
    if status1 ≠ Status.paid ∧ due_before inv.due_date today then Status.overdue
    else status1
  { inv with amount_paid := total_paid, status := status2 }

/-- update_invoice_on_payment_delete (signals.py lines 117-151): body
identical to the save handler, fired on payment deletion. -/
def update_invoice_on_payment_delete (inv : Invoice) (payments : List ℚ)
    (today : Int) : Invoice :=
  let total_paid := payments.sum
  let total := inv.total
  let status1 : Status :=
    if total_paid ≥ total ∧ total > 0 then Status.paid
    else if total_paid > 0 then Status.pending
    else Status.draft
  let status2 : Status :=
    if status1 ≠ Status.paid ∧ due_before inv.due_date today then Status.overdue
    else status1
  { inv with amount_paid := total_paid, status := status2 }

/-- update_invoice_totals_on_item_save (signals.py lines 18-45): sums
quantity times unit price over the invoice's items with explicit Decimal
conversion, applies the tax rate (Python `invoice.tax_rate or 7.5`
replaces a zero rate with 7.5), and writes subtotal, tax_amount and total
back. No rounding of the tax amount is performed. -/
def update_invoice_totals_on_item_save (inv : Invoice)
    (items : List InvoiceItem) : Invoice :=
  let subtotal := (items.map (fun it => it.quantity * it.unit_price)).sum
  let rate := (if inv.tax_rate = 0 then (7.5 : ℚ) else inv.tax_rate) / 100
  let tax_amount := subtotal * rate
  let total := subtotal + tax_amount
  { inv with subtotal := subtotal, tax_amount := tax_amount, total := total }

/-- calculate_outstanding_balance (signals.py lines 190-194): total minus
amount paid, with no clamping. -/
def calculate_outstanding_balance (inv : Invoice) : ℚ :=
  inv.total - inv.amount_paid

/-- Trip record of models.py restricted to the fields the profitability
helpers read: revenue and the amounts of the TripExpense rows reachable
through the reverse relation named expenses. -/
structure Trip where
  revenue : ℚ
  expenses : List ℚ
deriving DecidableEq, Repr

/-- Trip.get_total_expenses (models.py lines 178-188): aggregate sum of
the expense amounts, 0 when there are none. -/
def Trip.get_total_expenses (t : Trip) : ℚ :=
  t.expenses.sum

/-- Trip.get_profit (models.py lines 190-199): revenue minus total
expenses. -/
def Trip.get_profit (t : Trip) : ℚ :=
  t.revenue - t.get_total_expenses

/-- Trip.get_profit_margin (models.py lines 201-212): profit over revenue
times 100 when revenue is positive, else 0. Pure and read-only. -/
def Trip.get_profit_margin (t : Trip) : ℚ :=
  if 0 < t.revenue then t.get_profit / t.revenue * 100 else 0

/-- Name of the reverse relation from a Trip to its TripExpense rows, as
declared by related_name on the TripExpense.trip foreign key (models.py
line 245). -/
def tripExpenseRelatedName : String := "expenses"

/-- Django-style reverse-relation attribute lookup on a Trip: the expense
rows are reachable only under the declared related name; any other
attribute name raises AttributeError, modeled as an Except error. -/
def Trip.getRelated (t : Trip) (name : String) : Except String (List ℚ) :=
  if name = tripExpenseRelatedName then Except.ok t.expenses
  else Except.error ("AttributeError: " ++ name)

/-- Result dictionary of calculate_trip_profitability in signals.py. -/
structure ProfitabilityResult where
  total_revenue : ℚ
  total_expenses : ℚ
  profit : ℚ
  profit_margin : ℚ
  is_profitable : Bool
deriving DecidableEq, Repr

/-- calculate_trip_profitability (signals.py lines 197-235): inside a
try/except, reads trip.revenue, iterates trip.tripexpense_set.all() to
sum expenses, computes profit and a zero-guarded margin, and returns the
metrics dictionary; any exception yields the all-zero dictionary. The
attribute access is modeled through Trip.getRelated with the literal name
the source uses. -/
def calculate_trip_profitability (t : Trip) : ProfitabilityResult :=
  match t.getRelated "tripexpense_set" with
  | Except.ok expenseRows =>
    let total_revenue := t.revenue
    let total_expenses := expenseRows.sum
    let profit := total_revenue - total_expenses
    let profit_margin := if 0 < total_revenue then profit / total_revenue * 100 else 0
    { total_revenue := total_revenue
      total_expenses := total_expenses
      profit := profit
      profit_margin := profit_margin
      is_profitable := decide (0 < profit) }
  | Except.error _ =>
    { total_revenue := 0, total_expenses := 0, profit := 0,
      profit_margin := 0, is_profitable := false }

/-- Concrete persisted invoice: total 100, nothing paid, due on day 0,
current status sent by explicit user action. -/
def exSent : Invoice :=
  { pk := some 1, due_date := some 0, tax_rate := 0, subtotal := 100,
    tax_amount := 0, total := 100, amount_paid := 0,
    outstanding_amount := 100, status := Status.sent }

/-- Concrete overpaid invoice: total 100 from one line item, payments
recorded for 150 so the stored amount_paid is 150, while the stored
outstanding_amount still holds the stale value 100 from before the
payments (the payment triggers never write that column). -/
def exOverpaid : Invoice :=
  { pk := some 2, due_date := none, tax_rate := 0, subtotal := 100,
    tax_amount := 0, total := 100, amount_paid := 150,
    outstanding_amount := 100, status := Status.pending }

/-- Line items of the overpaid invoice: one row of quantity 1 at unit
price 100. -/
def exOverpaidItems : List InvoiceItem :=
  [{ quantity := 1, unit_price := 100, total := 100 }]

/-- Concrete invoice for the worked tax example: tax rate 7.5 percent,
nothing paid yet. -/
def exTaxInv : Invoice :=
  { pk := some 3, due_date := none, tax_rate := 7.5, subtotal := 0,
    tax_amount := 0, total := 0, amount_paid := 0,
    outstanding_amount := 0, status := Status.draft }

/-- Line items of the worked tax example: quantity 2 at 100 and
quantity 1 at 50. -/
def exTaxItems : List InvoiceItem :=
  [{ quantity := 2, unit_price := 100, total := 200 },
   { quantity := 1, unit_price := 50, total := 50 }]

/-- Concrete invoice ready to be marked paid: total 100, 30 already
paid, outstanding 70. -/
def exPartPaid : Invoice :=
  { pk := some 4, due_date := none, tax_rate := 0, subtotal := 100,
    tax_amount := 0, total := 100, amount_paid := 30,
    outstanding_amount := 70, status := Status.pending }

/-- Concrete trip with positive revenue 200 and expenses 50 and 30. -/
def tripA : Trip :=
  { revenue := 200, expenses := [50, 30] }

/-- Concrete trip with zero revenue and one expense of 10. -/
def tripB : Trip :=
  { revenue := 0, expenses := [10] }

/-- C5: when loading or summing the line items fails, calculate_totals
leaves every stored field of a persisted invoice unchanged: the except
handler reports the error and none of the four assignments runs, so the
prior financial figures are not zeroed. -/
theorem calculate_totals_load_failure_keeps_fields (inv : Invoice)
    (e : String) (h : inv.pk ≠ none) :
    Invoice.calculate_totals inv (Except.error e) = inv := by
  unfold Invoice.calculate_totals
  simp [h]

/-- Witness for C5 at a concrete invoice and load error. -/
theorem calculate_totals_load_failure_witness :
    exSent.pk ≠ none ∧
    Invoice.calculate_totals exSent (Except.error "load failure") = exSent :=
  ⟨by decide, calculate_totals_load_failure_keeps_fields exSent "load failure" (by decide)⟩

/-- Helper: on a persisted invoice with no line items, calculate_totals
assigns subtotal 0, tax_amount 0 and total 0 (the int and float zeros
the source computes) and then raises TypeError at the outstanding line
(float total minus Decimal amount_paid), so outstanding_amount keeps
its prior value. -/
lemma calculate_totals_ok_nil (inv : Invoice) (h : inv.pk ≠ none) :
    Invoice.calculate_totals inv (Except.ok []) =
      { inv with subtotal := 0, tax_amount := 0, total := 0 } := by
  simp [Invoice.calculate_totals, h, pySum, pyMul, pyAdd, pySub, PyVal.val]

/-- Helper: on a persisted invoice with at least one line item,
calculate_totals assigns the Decimal subtotal and then raises TypeError
at the tax line (Decimal subtotal times float tax_rate/100), so
tax_amount, total and outstanding_amount keep their prior values. -/
lemma calculate_totals_ok_cons (inv : Invoice) (x : InvoiceItem)
    (xs : List InvoiceItem) (h : inv.pk ≠ none) :
    Invoice.calculate_totals inv (Except.ok (x :: xs)) =
      { inv with subtotal := ((x :: xs).map InvoiceItem.total).sum } := by
  simp [Invoice.calculate_totals, h, pySum, pyMul, PyVal.val]

/-- C6: calculate_totals is idempotent: running it twice in a row with
the same line-item load yields the same stored values as running it
once, bit for bit, in every case — unsaved invoice, failed load, and
the two raising paths of a successful load, which abort at the same
statement both times and so repeat the same partial writes. -/
theorem calculate_totals_idempotent (inv : Invoice)
    (load : Except String (List InvoiceItem)) :
    Invoice.calculate_totals (Invoice.calculate_totals inv load) load =
      Invoice.calculate_totals inv load := by
  by_cases h : inv.pk = none
  · cases load <;> simp [Invoice.calculate_totals, h]
  · cases load with
    | error e => simp [Invoice.calculate_totals, h]
    | ok items =>
      cases items with
      | nil =>
        rw [calculate_totals_ok_nil inv h]
        exact calculate_totals_ok_nil _ (by simpa using h)
      | cons x xs =>
        rw [calculate_totals_ok_cons inv x xs h]
        exact calculate_totals_ok_cons _ x xs (by simpa using h)

/-- C2 amended: calculate_totals never writes outstanding_amount on a
persisted invoice — with line items it raises TypeError at the tax line
(Decimal subtotal times float rate), without them at the outstanding
line (float total minus Decimal amount_paid) — so outstanding_amount
and amount_paid always retain their prior stored values; in particular
no clamping to max of 0 and total minus amount_paid ever happens. -/
theorem calculate_totals_never_writes_outstanding (inv : Invoice)
    (items : List InvoiceItem) (h : inv.pk ≠ none) :
    (Invoice.calculate_totals inv (Except.ok items)).outstanding_amount =
      inv.outstanding_amount ∧
    (Invoice.calculate_totals inv (Except.ok items)).amount_paid = inv.amount_paid := by
  cases items with
  | nil =>
    rw [calculate_totals_ok_nil inv h]
    exact ⟨rfl, rfl⟩
  | cons x xs =>
    rw [calculate_totals_ok_cons inv x xs h]
    exact ⟨rfl, rfl⟩

/-- Witness for the amended C2 at the concrete overpaid invoice. -/
theorem calculate_totals_never_writes_outstanding_witness :
    exOverpaid.pk ≠ none ∧
    ((Invoice.calculate_totals exOverpaid (Except.ok exOverpaidItems)).outstanding_amount =
        exOverpaid.outstanding_amount ∧
      (Invoice.calculate_totals exOverpaid (Except.ok exOverpaidItems)).amount_paid =
        exOverpaid.amount_paid) :=
  ⟨by decide,
    calculate_totals_never_writes_outstanding exOverpaid exOverpaidItems (by decide)⟩

/-- Counterexample to C2 as stated: on the overpaid invoice (total 100,
amount_paid 150, stale prior outstanding 100), calculate_totals raises
at the tax line and leaves outstanding_amount at 100, which differs
from the claimed max of 0 and total minus amount_paid, namely 0 — and
amount_paid 150 is indeed stored unclamped. -/
theorem overpayment_clamp_counterexample :
    (Invoice.calculate_totals exOverpaid (Except.ok exOverpaidItems)).outstanding_amount = 100 ∧
    (Invoice.calculate_totals exOverpaid (Except.ok exOverpaidItems)).amount_paid = 150 ∧
    (Invoice.calculate_totals exOverpaid (Except.ok exOverpaidItems)).outstanding_amount ≠
      max 0 ((Invoice.calculate_totals exOverpaid (Except.ok exOverpaidItems)).total -
        (Invoice.calculate_totals exOverpaid (Except.ok exOverpaidItems)).amount_paid) := by
  have hx := calculate_totals_ok_cons exOverpaid
    { quantity := 1, unit_price := 100, total := 100 } [] (by decide)
  simp only [exOverpaidItems]
  rw [hx]
  norm_num [exOverpaid, max_def]

/-- C3 amended: after either payment trigger runs, the stored
amount_paid equals the sum of the invoice's payment amounts, but
outstanding_amount is not written by the trigger and keeps whatever
value it had before. -/
theorem payment_triggers_write_amount_paid_only (inv : Invoice)
    (payments : List ℚ) (today : Int) :
    (update_invoice_on_payment_save inv payments today).amount_paid = payments.sum ∧
    (update_invoice_on_payment_save inv payments today).outstanding_amount =
      inv.outstanding_amount ∧
    (update_invoice_on_payment_delete inv payments today).amount_paid = payments.sum ∧
    (update_invoice_on_payment_delete inv payments today).outstanding_amount =
      inv.outstanding_amount :=
  ⟨rfl, rfl, rfl, rfl⟩

/-- Counterexample to C3 as stated: on the invoice with total 100 and
prior outstanding 100, recording a payment of 40 leaves the stored
outstanding_amount at 100, which differs from total minus amount_paid
floored at zero, namely 60. -/
theorem payment_trigger_outstanding_counterexample :
    (update_invoice_on_payment_save exSent [40] 0).amount_paid = 40 ∧
    (update_invoice_on_payment_save exSent [40] 0).outstanding_amount = 100 ∧
    (update_invoice_on_payment_save exSent [40] 0).outstanding_amount ≠
      max 0 ((update_invoice_on_payment_save exSent [40] 0).total -
        (update_invoice_on_payment_save exSent [40] 0).amount_paid) := by
  norm_num [update_invoice_on_payment_save, exSent, max_def]

/-- C1 amended: for a partially paid invoice (positive payment sum below
the total), both payment triggers derive status pending and then apply
the overdue check: when the due date is set and earlier than today the
written status is overdue, otherwise it is pending — positive partial
payment does not suppress overdue. -/
theorem partial_payment_status_derivation (inv : Invoice)
    (payments : List ℚ) (today : Int)
    (hpos : 0 < payments.sum) (hlt : payments.sum < inv.total) :
    (update_invoice_on_payment_save inv payments today).status =
      (if due_before inv.due_date today then Status.overdue else Status.pending) ∧
    (update_invoice_on_payment_delete inv payments today).status =
      (if due_before inv.due_date today then Status.overdue else Status.pending) := by
  have hne : ¬ (payments.sum ≥ inv.total ∧ inv.total > 0) := by
    intro hc
    exact absurd hc.1 (not_le.mpr hlt)
  constructor <;>
    simp [update_invoice_on_payment_save, update_invoice_on_payment_delete, hne, hpos]

/-- Witness for the amended C1 at a concrete partially paid, past-due
invoice. -/
theorem partial_payment_status_witness :
    0 < ([(50 : ℚ)].sum) ∧ ([(50 : ℚ)].sum) < exSent.total ∧
    ((update_invoice_on_payment_save exSent [50] 1).status =
        (if due_before exSent.due_date 1 then Status.overdue else Status.pending) ∧
      (update_invoice_on_payment_delete exSent [50] 1).status =
        (if due_before exSent.due_date 1 then Status.overdue else Status.pending)) :=
  ⟨by norm_num, by norm_num [exSent],
    partial_payment_status_derivation exSent [50] 1 (by norm_num) (by norm_num [exSent])⟩

/-- Counterexample to C1 as stated: the invoice with total 100, a single
payment of 50 (so 0 < amount_paid < total), and due date on day 0 with
today being day 1 is written status overdue by the payment-save trigger,
not pending. -/
theorem partial_payment_overdue_counterexample :
    0 < ([(50 : ℚ)].sum) ∧ ([(50 : ℚ)].sum) < exSent.total ∧
    due_before exSent.due_date 1 = true ∧
    (update_invoice_on_payment_save exSent [50] 1).status = Status.overdue ∧
    (update_invoice_on_payment_save exSent [50] 1).status ≠ Status.pending := by
  refine ⟨by norm_num, by norm_num [exSent], by decide, ?_, ?_⟩ <;>
    norm_num [update_invoice_on_payment_save, exSent, due_before] <;> decide

/-- C7 amended: when the payment sum is zero and the due date is unset
or not earlier than today, both payment triggers write status draft,
overwriting whatever explicit status the invoice had — a sent invoice
does not stay sent. -/
theorem zero_payment_status_reset (inv : Invoice) (payments : List ℚ)
    (today : Int) (hz : payments.sum = 0)
    (hdue : due_before inv.due_date today = false) :
    (update_invoice_on_payment_save inv payments today).status = Status.draft ∧
    (update_invoice_on_payment_delete inv payments today).status = Status.draft := by
  have h1 : ¬ (payments.sum ≥ inv.total ∧ inv.total > 0) := by
    intro hc
    rw [hz] at hc
    exact absurd hc.2 (not_lt.mpr hc.1)
  have h2 : ¬ (payments.sum > 0) := by
    rw [hz]
    exact lt_irrefl 0
  constructor <;>
    simp [update_invoice_on_payment_save, update_invoice_on_payment_delete, h1, h2, hdue]

/-- Witness for the amended C7 at a concrete invoice with no payments
and no overdue condition. -/
theorem zero_payment_status_reset_witness :
    ([] : List ℚ).sum = 0 ∧ due_before exSent.due_date 0 = false ∧
    ((update_invoice_on_payment_save exSent [] 0).status = Status.draft ∧
      (update_invoice_on_payment_delete exSent [] 0).status = Status.draft) :=
  ⟨rfl, by decide, zero_payment_status_reset exSent [] 0 rfl (by decide)⟩

/-- Counterexample to C7 as stated: the sent invoice with zero payments
and no overdue condition is written status draft by the payment-save
trigger; its explicit status sent is not preserved. -/
theorem sent_status_overwritten_counterexample :
    exSent.status = Status.sent ∧
    ([] : List ℚ).sum = 0 ∧
    due_before exSent.due_date 0 = false ∧
    (update_invoice_on_payment_save exSent [] 0).status = Status.draft ∧
    (update_invoice_on_payment_save exSent [] 0).status ≠ Status.sent := by
  refine ⟨rfl, rfl, by decide, ?_, ?_⟩
  · norm_num [update_invoice_on_payment_save, exSent, due_before]
  · norm_num [update_invoice_on_payment_save, exSent, due_before]
    decide

/-- C4 amended: on a persisted invoice with at least one line item
whose stored totals are consistent, calculate_totals sets subtotal to
the exact decimal sum of quantity times unit price, then raises
TypeError at the tax line (Decimal subtotal times float tax_rate/100),
so tax_amount, total and outstanding_amount keep their prior stored
values — the claimed tax and total assignments never execute. -/
theorem calculate_totals_aborts_at_tax (inv : Invoice)
    (items : List InvoiceItem) (hpk : inv.pk ≠ none) (hne : items ≠ [])
    (htot : ∀ it ∈ items, it.total = it.quantity * it.unit_price) :
    (Invoice.calculate_totals inv (Except.ok items)).subtotal =
      (items.map (fun it => it.quantity * it.unit_price)).sum ∧
    (Invoice.calculate_totals inv (Except.ok items)).tax_amount = inv.tax_amount ∧
    (Invoice.calculate_totals inv (Except.ok items)).total = inv.total ∧
    (Invoice.calculate_totals inv (Except.ok items)).outstanding_amount =
      inv.outstanding_amount := by
  cases items with
  | nil => exact absurd rfl hne
  | cons x xs =>
    rw [calculate_totals_ok_cons inv x xs hpk]
    have hmap : (x :: xs).map InvoiceItem.total =
        (x :: xs).map (fun it => it.quantity * it.unit_price) :=
      List.map_congr_left htot
    exact ⟨by simp [hmap], rfl, rfl, rfl⟩

/-- Witness for the amended C4 at the worked example items under tax
rate 7.5: subtotal is written, tax_amount, total and outstanding keep
their prior values. -/
theorem calculate_totals_aborts_at_tax_witness :
    exTaxInv.pk ≠ none ∧ exTaxItems ≠ [] ∧
    ((Invoice.calculate_totals exTaxInv (Except.ok exTaxItems)).subtotal =
        (exTaxItems.map (fun it => it.quantity * it.unit_price)).sum ∧
      (Invoice.calculate_totals exTaxInv (Except.ok exTaxItems)).tax_amount =
        exTaxInv.tax_amount ∧
      (Invoice.calculate_totals exTaxInv (Except.ok exTaxItems)).total = exTaxInv.total ∧
      (Invoice.calculate_totals exTaxInv (Except.ok exTaxItems)).outstanding_amount =
        exTaxInv.outstanding_amount) :=
  ⟨by decide, by simp [exTaxItems],
    calculate_totals_aborts_at_tax exTaxInv exTaxItems (by decide)
      (by simp [exTaxItems]) (by norm_num [exTaxItems])⟩

/-- Counterexample to C4 as stated: on the worked example (items of
quantity 2 at 100 and quantity 1 at 50, tax rate 7.5, prior tax_amount
and total both 0), calculate_totals sets subtotal 250 but aborts before
the tax assignment: the stored tax_amount stays 0, not 18.75, and the
stored total stays 0, not 268.75. -/
theorem tax_total_not_updated_counterexample :
    (Invoice.calculate_totals exTaxInv (Except.ok exTaxItems)).subtotal = 250 ∧
    (Invoice.calculate_totals exTaxInv (Except.ok exTaxItems)).tax_amount = 0 ∧
    (Invoice.calculate_totals exTaxInv (Except.ok exTaxItems)).tax_amount ≠ 18.75 ∧
    (Invoice.calculate_totals exTaxInv (Except.ok exTaxItems)).total = 0 ∧
    (Invoice.calculate_totals exTaxInv (Except.ok exTaxItems)).total ≠ 268.75 := by
  have hx := calculate_totals_ok_cons exTaxInv
    { quantity := 2, unit_price := 100, total := 200 }
    [{ quantity := 1, unit_price := 50, total := 50 }] (by decide)
  simp only [exTaxItems]
  rw [hx]
  norm_num [exTaxInv]

/-- C8: the trip profitability helpers compute profit as revenue minus
the sum of the trip's expense amounts, and the margin as profit over
revenue times 100 when revenue is positive, substituting 0 when revenue
is 0 instead of raising a division error; the helpers are pure functions
with no persistence side effect. -/
theorem trip_profit_margin_spec (t : Trip) :
    t.get_profit = t.revenue - t.expenses.sum ∧
    (t.revenue = 0 → t.get_profit_margin = 0) ∧
    (0 < t.revenue → t.get_profit_margin = t.get_profit / t.revenue * 100) := by
  refine ⟨rfl, ?_, ?_⟩
  · intro h
    simp [Trip.get_profit_margin, h]
  · intro h
    simp [Trip.get_profit_margin, h]

/-- Witness for C8 at two concrete trips: revenue 200 with expenses 50
and 30 gives the formula margin, and revenue 0 gives margin 0. -/
theorem trip_profit_margin_witness :
    (tripA.get_profit = tripA.revenue - tripA.expenses.sum ∧
      tripA.get_profit_margin = tripA.get_profit / tripA.revenue * 100) ∧
    tripB.get_profit_margin = 0 := by
  obtain ⟨h1, _, h3⟩ := trip_profit_margin_spec tripA
  obtain ⟨_, k2, _⟩ := trip_profit_margin_spec tripB
  exact ⟨⟨h1, h3 (by norm_num [tripA])⟩, k2 (by norm_num [tripB])⟩

/-- C9: calculate_trip_profitability in signals.py reads the attribute
tripexpense_set, but the reverse relation from TripExpense to Trip is
named expenses, so the access raises and the except branch returns the
all-zero dictionary for every trip, regardless of revenue or expenses. -/
theorem trip_profitability_always_zero (t : Trip) :
    calculate_trip_profitability t =
      { total_revenue := 0, total_expenses := 0, profit := 0,
        profit_margin := 0, is_profitable := false } := rfl

/-- C10: on an invoice whose stored outstanding_amount equals total
minus amount_paid, mark_as_paid with no amount argument ends with
status paid, outstanding_amount 0, and amount_paid equal to the total;
the method writes no PaymentRecord, amount_paid is incremented
directly. -/
theorem mark_as_paid_full_settles (inv : Invoice)
    (h : inv.outstanding_amount = inv.total - inv.amount_paid) :
    (inv.mark_as_paid none).status = Status.paid ∧
    (inv.mark_as_paid none).outstanding_amount = 0 ∧
    (inv.mark_as_paid none).amount_paid = inv.total := by
  have e1 : inv.amount_paid + (inv.total - inv.amount_paid) = inv.total := by
    ring
  simp [Invoice.mark_as_paid, h, e1]

/-- Witness for C10 at a concrete invoice with total 100, amount_paid
30 and outstanding 70. -/
theorem mark_as_paid_full_settles_witness :
    exPartPaid.outstanding_amount = exPartPaid.total - exPartPaid.amount_paid ∧
    ((exPartPaid.mark_as_paid none).status = Status.paid ∧
      (exPartPaid.mark_as_paid none).outstanding_amount = 0 ∧
      (exPartPaid.mark_as_paid none).amount_paid = exPartPaid.total) :=
  ⟨by norm_num [exPartPaid], mark_as_paid_full_settles exPartPaid (by norm_num [exPartPaid])⟩

end KnlInvoice
